import Mathlib

/-!
Shallow embedding of the joiner reactor (`node/src/reactor/joiner.rs`): the
event algebra, the reactor state, the dispatch router, the termination
predicate, construction and teardown.  Component-internal behaviour
(network, storage, fetchers, sync tracker, consensus, ...) lives outside the
sampled source, so each component's state is an opaque type and its
`handle_event` is an abstract function collected in a `Handlers` record;
theorems quantify over all handlers.
-/

/-- Peer / node identifier (opaque). -/
abbrev NodeId : Type := Nat

/-- A block (opaque payload; the router never inspects it). -/
abbrev Block : Type := Nat

/-- A block addressed by height (opaque payload). -/
abbrev BlockByHeight : Type := Nat

/-- A deploy (opaque payload). -/
abbrev Deploy : Type := Nat

/-- A proto block (opaque payload). -/
abbrev ProtoBlock : Type := Nat

/-- A gossiped address (opaque payload). -/
abbrev GossipedAddress : Type := Nat

/-- A cryptographic digest (opaque). -/
abbrev Digest : Type := Nat

/-- A block hash wraps a digest (`BlockHash::new`). -/
abbrev BlockHash : Type := Nat

/-- `BlockHash::new` wraps a digest into a block hash. -/
def BlockHash.new (d : Digest) : BlockHash := d

/-- Raw serialized bytes of a wire item. -/
abbrev Bytes : Type := List Nat

/-- An address-gossiper protocol message (opaque payload). -/
abbrev GossiperMessage : Type := Nat

/-- `Source`: where an item came from (`utils::Source`). -/
inductive Source where
  | Peer (id : NodeId)
  | Client
deriving DecidableEq, Repr

/-- Wire tag of a `GetResponse` (`types::Tag`). -/
inductive Tag where
  | Deploy
  | Block
  | BlockByHeight
deriving DecidableEq, Repr

/-- Network protocol message (`protocol::Message`), as matched by the router:
a tagged `GetResponse`, an address-gossiper message, or anything else. -/
inductive Message where
  | GetResponse (tag : Tag) (serialized_item : Bytes)
  | AddressGossiper (msg : GossiperMessage)
  | Other (n : Nat)
deriving DecidableEq, Repr

/-- Opaque state of the small-network component. -/
abbrev SmallNetworkState : Type := Nat

/-- Opaque state of the storage component. -/
abbrev StorageState : Type := Nat

/-- Opaque state of the contract-runtime component. -/
abbrev ContractRuntimeState : Type := Nat

/-- Opaque state of a `Fetcher<T>` component instance. -/
abbrev FetcherState : Type := Nat

/-- Opaque state of the block-validator component. -/
abbrev BlockValidatorState : Type := Nat

/-- Opaque state of the `LinearChainSync` (sync tracker) component. -/
abbrev LinearChainSyncState : Type := Nat

/-- Opaque state of the block-executor component. -/
abbrev BlockExecutorState : Type := Nat

/-- Opaque state of the consensus (`EraSupervisor`) component. -/
abbrev ConsensusState : Type := Nat

/-- Opaque state of the address-gossiper component. -/
abbrev GossiperState : Type := Nat

/-- The linear-chain component: holds the confirmed chain (exposed by its
`linear_chain()` accessor and cloned at teardown) plus opaque internal
state. -/
structure LinearChainComponent where
  linear_chain : List Block
  rest : Nat
deriving DecidableEq, Repr

/-- Events of the small-network component.  The router constructs the
`PeerAddressReceived` variant; all others are opaque. -/
inductive SmallNetworkEvent where
  | PeerAddressReceived (addr : GossipedAddress)
  | Other (n : Nat)
deriving DecidableEq, Repr

/-- Opaque event of the storage component. -/
abbrev StorageEvent : Type := Nat

/-- Events of a `Fetcher<I>` component.  The router constructs the
`GotRemotely` variant; all others are opaque. -/
inductive FetcherEvent (I : Type) where
  | GotRemotely (item : I) (source : Source)
  | Other (n : Nat)
deriving DecidableEq

/-- Opaque event of the block-validator component. -/
abbrev BlockValidatorEvent : Type := Nat

/-- Events of the `LinearChainSync` component.  The router constructs
`NewPeerConnected` and `BlockHandled`; all others are opaque. -/
inductive LinearChainSyncEvent where
  | NewPeerConnected (id : NodeId)
  | BlockHandled (height : Nat)
  | Other (n : Nat)
deriving DecidableEq, Repr

/-- Opaque event of the block-executor component. -/
abbrev BlockExecutorEvent : Type := Nat

/-- Opaque event of the contract-runtime component. -/
abbrev ContractRuntimeEvent : Type := Nat

/-- Events of the linear-chain component.  The router constructs
`LinearChainBlock`; all others are opaque. -/
inductive LinearChainEvent where
  | LinearChainBlock (block : Block)
  | Other (n : Nat)
deriving DecidableEq, Repr

/-- Opaque event of the consensus component. -/
abbrev ConsensusEvent : Type := Nat

/-- Events of the address-gossiper component.  The router constructs
`ItemReceived` and `MessageReceived`; all others are opaque. -/
inductive GossiperEvent where
  | ItemReceived (item_id : GossipedAddress) (source : Source)
  | MessageReceived (sender : NodeId) (message : GossiperMessage)
  | Other (n : Nat)
deriving DecidableEq, Repr

/-- Opaque fetcher request (`FetcherRequest<NodeId, I>`). -/
abbrev FetcherRequest (_I : Type) : Type := Nat

/-- Opaque block-validation request (`BlockValidationRequest<T, NodeId>`). -/
abbrev BlockValidationRequest (_T : Type) : Type := Nat

/-- Opaque block-executor request. -/
abbrev BlockExecutorRequest : Type := Nat

/-- Opaque deploy-buffer request. -/
abbrev DeployBufferRequest : Type := Nat

/-- Network announcements (`NetworkAnnouncement<NodeId, Message>`). -/
inductive NetworkAnnouncement where
  | NewPeer (id : NodeId)
  | GossipOurAddress (addr : GossipedAddress)
  | MessageReceived (sender : NodeId) (payload : Message)
deriving DecidableEq, Repr

/-- Block-executor announcement: a block was executed and appended. -/
inductive BlockExecutorAnnouncement where
  | LinearChainBlock (block : Block)
deriving DecidableEq, Repr

/-- Consensus announcements.  The router matches `Handled`; every other
variant is opaque. -/
inductive ConsensusAnnouncement where
  | Handled (height : Nat)
  | Other (n : Nat)
deriving DecidableEq, Repr

/-- Gossiper announcement (`GossiperAnnouncement<GossipedAddress>`). -/
inductive GossiperAnnouncement where
  | NewCompleteItem (addr : GossipedAddress)
deriving DecidableEq, Repr

/-- `Effects<E>`: the deferred effects a dispatch returns, identified by the
events they will produce.  `wrap_effects` lifts them functorially. -/
abbrev Effects (α : Type) : Type := List α

/-- `reactor::wrap_effects`: re-tags a component's effects with the parent
event constructor, preserving their order. -/
def wrap_effects {α β : Type} (f : α → β) (effects : Effects α) : Effects β :=
  effects.map f

/-- Severity of a log line emitted by the router. -/
inductive LogLevel where
  | info
  | warn
  | error
deriving DecidableEq, Repr

/-- A log line the router emits: its level and the peer it mentions, if
any. -/
structure LogEntry where
  level : LogLevel
  peer : Option NodeId
deriving DecidableEq, Repr

/-- Top-level event of the joiner reactor (`joiner::Event`), one variant per
component event, request, or announcement, as in the source. -/
inductive Event where
  | Network (ev : SmallNetworkEvent)
  | Storage (ev : StorageEvent)
  | BlockFetcher (ev : FetcherEvent Block)
  | BlockByHeightFetcher (ev : FetcherEvent BlockByHeight)
  | DeployFetcher (ev : FetcherEvent Deploy)
  | BlockValidator (ev : BlockValidatorEvent)
  | LinearChainSync (ev : LinearChainSyncEvent)
  | BlockExecutor (ev : BlockExecutorEvent)
  | ContractRuntime (ev : ContractRuntimeEvent)
  | LinearChain (ev : LinearChainEvent)
  | Consensus (ev : ConsensusEvent)
  | AddressGossiper (ev : GossiperEvent)
  | BlockFetcherRequest (req : FetcherRequest Block)
  | BlockByHeightFetcherRequest (req : FetcherRequest BlockByHeight)
  | DeployFetcherRequest (req : FetcherRequest Deploy)
  | BlockValidatorRequest (req : BlockValidationRequest Block)
  | BlockExecutorRequest (req : BlockExecutorRequest)
  | DeployBufferRequest (req : DeployBufferRequest)
  | ProtoBlockValidatorRequest (req : BlockValidationRequest ProtoBlock)
  | NetworkAnnouncement (ann : NetworkAnnouncement)
  | BlockExecutorAnnouncement (ann : BlockExecutorAnnouncement)
  | ConsensusAnnouncement (ann : ConsensusAnnouncement)
  | AddressGossiperAnnouncement (ann : GossiperAnnouncement)

/-- Node-level configuration: the optional trusted hash, as a hex string. -/
structure NodeConfig where
  trusted_hash : Option String
deriving DecidableEq, Repr

/-- Validator configuration carried by the joiner (opaque except the pieces
the joiner reads: network config, gossip config, node config, consensus
config). -/
structure Config where
  network : Nat
  gossip : Nat
  node : NodeConfig
  consensus : Nat
deriving DecidableEq, Repr

/-- The chainspec loader: exposes the genesis post-state hash (optional),
the genesis validator stakes and the highway config; read-only. -/
structure ChainspecLoader where
  genesis_post_state_hash : Option Digest
  genesis_validator_stakes : Nat
  highway_config : Nat
deriving DecidableEq, Repr

/-- Abstract behaviour of every external collaborator: one `handle_event`
per component (state in, event in; new state and effects out), the
predicates and conversions the router uses, and the constructors used by
`Reactor::new`.  All are arbitrary: theorems hold for every instance. -/
structure Handlers where
  netHandle : SmallNetworkState → SmallNetworkEvent →
    SmallNetworkState × Effects SmallNetworkEvent
  storageHandle : StorageState → StorageEvent → StorageState × Effects StorageEvent
  blockFetcherHandle : FetcherState → FetcherEvent Block →
    FetcherState × Effects (FetcherEvent Block)
  blockByHeightFetcherHandle : FetcherState → FetcherEvent BlockByHeight →
    FetcherState × Effects (FetcherEvent BlockByHeight)
  deployFetcherHandle : FetcherState → FetcherEvent Deploy →
    FetcherState × Effects (FetcherEvent Deploy)
  blockValidatorHandle : BlockValidatorState → BlockValidatorEvent →
    BlockValidatorState × Effects BlockValidatorEvent
  linearChainSyncHandle : LinearChainSyncState → LinearChainSyncEvent →
    LinearChainSyncState × Effects LinearChainSyncEvent
  linearChainSyncIsSynced : LinearChainSyncState → Bool
  blockExecutorHandle : BlockExecutorState → BlockExecutorEvent →
    BlockExecutorState × Effects BlockExecutorEvent
  contractRuntimeHandle : ContractRuntimeState → ContractRuntimeEvent →
    ContractRuntimeState × Effects ContractRuntimeEvent
  linearChainHandle : LinearChainComponent → LinearChainEvent →
    LinearChainComponent × Effects LinearChainEvent
  consensusHandle : ConsensusState → ConsensusEvent →
    ConsensusState × Effects ConsensusEvent
  gossiperHandle : GossiperState → GossiperEvent →
    GossiperState × Effects GossiperEvent
  decodeBlock : Bytes → Option Block
  decodeBlockByHeight : Bytes → Option BlockByHeight
  blockFetcherReqInto : FetcherRequest Block → FetcherEvent Block
  blockByHeightFetcherReqInto : FetcherRequest BlockByHeight → FetcherEvent BlockByHeight
  deployFetcherReqInto : FetcherRequest Deploy → FetcherEvent Deploy
  blockValidatorReqInto : BlockValidationRequest Block → BlockValidatorEvent
  blockExecutorReqInto : BlockExecutorRequest → BlockExecutorEvent
  smallNetworkNew : Nat → Except Unit (SmallNetworkState × Effects SmallNetworkEvent)
  fromHex : String → Option Digest
  fetcherNew : Nat → FetcherState
  gossiperNewForCompleteItems : Nat → GossiperState
  blockValidatorNew : BlockValidatorState
  linearChainSyncNew : Option BlockHash → LinearChainSyncState
  blockExecutorNew : Digest → BlockExecutorState
  linearChainNew : LinearChainComponent
  now : Nat
  eraSupervisorNew : Nat → Nat → Nat → Nat →
    Except Unit (ConsensusState × Effects ConsensusEvent)

/-- The joiner reactor's state: one exclusively-owned instance of each
component plus the configuration, chainspec loader, and the consensus
effects accumulated at construction; field for field as in the source. -/
structure Reactor where
  net : SmallNetworkState
  address_gossiper : GossiperState
  config : Config
  chainspec_loader : ChainspecLoader
  storage : StorageState
  contract_runtime : ContractRuntimeState
  linear_chain_fetcher : FetcherState
  linear_chain_sync : LinearChainSyncState
  block_validator : BlockValidatorState
  deploy_fetcher : FetcherState
  block_executor : BlockExecutorState
  linear_chain : LinearChainComponent
  consensus : ConsensusState
  init_consensus_effects : Effects ConsensusEvent
  block_by_height_fetcher : FetcherState

/-- Recursion measure for `dispatch_event`: announcements and request
variants re-dispatch exactly once, into a direct component variant. -/
def Event.rank : Event → Nat
  | .Network _ => 0
  | .Storage _ => 0
  | .BlockFetcher _ => 0
  | .BlockByHeightFetcher _ => 0
  | .DeployFetcher _ => 0
  | .BlockValidator _ => 0
  | .LinearChainSync _ => 0
  | .BlockExecutor _ => 0
  | .ContractRuntime _ => 0
  | .LinearChain _ => 0
  | .Consensus _ => 0
  | .AddressGossiper _ => 0
  | .BlockFetcherRequest _ => 1
  | .BlockByHeightFetcherRequest _ => 1
  | .DeployFetcherRequest _ => 1
  | .BlockValidatorRequest _ => 1
  | .BlockExecutorRequest _ => 1
  | .DeployBufferRequest _ => 0
  | .ProtoBlockValidatorRequest _ => 0
  | .NetworkAnnouncement _ => 1
  | .BlockExecutorAnnouncement _ => 1
  | .ConsensusAnnouncement _ => 0
  | .AddressGossiperAnnouncement _ => 1

/-- `Reactor::dispatch_event`: routes one event to its owning component (or
executes an announcement-routing rule), returning the updated reactor, the
lifted effects, and the log lines emitted by the router itself. -/
def Reactor.dispatch_event (h : Handlers) (r : Reactor) (event : Event) :
    Reactor × Effects Event × List LogEntry :=
  match event with
  | .Network ev =>
      let res := h.netHandle r.net ev
      ({ r with net := res.1 }, wrap_effects .Network res.2, [])
  | .NetworkAnnouncement (.NewPeer id) =>
      let res := h.linearChainSyncHandle r.linear_chain_sync (.NewPeerConnected id)
      ({ r with linear_chain_sync := res.1 }, wrap_effects .LinearChainSync res.2, [])
  | .NetworkAnnouncement (.GossipOurAddress gossiped_address) =>
      Reactor.dispatch_event h r
        (.AddressGossiper (.ItemReceived gossiped_address .Client))
  | .NetworkAnnouncement (.MessageReceived sender payload) =>
      match payload with
      | .GetResponse .Block serialized_item =>
          match h.decodeBlock serialized_item with
          | none => (r, [], [⟨.error, some sender⟩])
          | some block =>
              Reactor.dispatch_event h r
                (.BlockFetcher (.GotRemotely block (.Peer sender)))
      | .GetResponse .BlockByHeight serialized_item =>
          match h.decodeBlockByHeight serialized_item with
          | none => (r, [], [⟨.error, some sender⟩])
          | some block_at_height =>
              Reactor.dispatch_event h r
                (.BlockByHeightFetcher (.GotRemotely block_at_height (.Peer sender)))
      | .AddressGossiper message =>
          Reactor.dispatch_event h r
            (.AddressGossiper (.MessageReceived sender message))
      | _ => (r, [], [⟨.warn, none⟩])
  | .Storage ev =>
      let res := h.storageHandle r.storage ev
      ({ r with storage := res.1 }, wrap_effects .Storage res.2, [])
  | .BlockFetcherRequest request =>
      Reactor.dispatch_event h r (.BlockFetcher (h.blockFetcherReqInto request))
  | .BlockValidatorRequest request =>
      Reactor.dispatch_event h r (.BlockValidator (h.blockValidatorReqInto request))
  | .LinearChainSync ev =>
      let res := h.linearChainSyncHandle r.linear_chain_sync ev
      ({ r with linear_chain_sync := res.1 }, wrap_effects .LinearChainSync res.2, [])
  | .BlockFetcher ev =>
      let res := h.blockFetcherHandle r.linear_chain_fetcher ev
      ({ r with linear_chain_fetcher := res.1 }, wrap_effects .BlockFetcher res.2, [])
  | .BlockValidator ev =>
      let res := h.blockValidatorHandle r.block_validator ev
      ({ r with block_validator := res.1 }, wrap_effects .BlockValidator res.2, [])
  | .DeployFetcher ev =>
      let res := h.deployFetcherHandle r.deploy_fetcher ev
      ({ r with deploy_fetcher := res.1 }, wrap_effects .DeployFetcher res.2, [])
  | .BlockByHeightFetcher ev =>
      let res := h.blockByHeightFetcherHandle r.block_by_height_fetcher ev
      ({ r with block_by_height_fetcher := res.1 },
        wrap_effects .BlockByHeightFetcher res.2, [])
  | .DeployFetcherRequest request =>
      Reactor.dispatch_event h r (.DeployFetcher (h.deployFetcherReqInto request))
  | .BlockByHeightFetcherRequest request =>
      Reactor.dispatch_event h r
        (.BlockByHeightFetcher (h.blockByHeightFetcherReqInto request))
  | .BlockExecutor ev =>
      let res := h.blockExecutorHandle r.block_executor ev
      ({ r with block_executor := res.1 }, wrap_effects .BlockExecutor res.2, [])
  | .BlockExecutorRequest request =>
      Reactor.dispatch_event h r (.BlockExecutor (h.blockExecutorReqInto request))
  | .ContractRuntime ev =>
      let res := h.contractRuntimeHandle r.contract_runtime ev
      ({ r with contract_runtime := res.1 }, wrap_effects .ContractRuntime res.2, [])
  | .BlockExecutorAnnouncement (.LinearChainBlock block) =>
      Reactor.dispatch_event h r (.LinearChain (.LinearChainBlock block))
  | .LinearChain ev =>
      let res := h.linearChainHandle r.linear_chain ev
      ({ r with linear_chain := res.1 }, wrap_effects .LinearChain res.2, [])
  | .Consensus ev =>
      let res := h.consensusHandle r.consensus ev
      ({ r with consensus := res.1 }, wrap_effects .Consensus res.2, [])
  | .ConsensusAnnouncement (.Handled height) =>
      let res := h.linearChainSyncHandle r.linear_chain_sync (.BlockHandled height)
      ({ r with linear_chain_sync := res.1 }, wrap_effects .LinearChainSync res.2, [])
  | .ConsensusAnnouncement (.Other _) =>
      (r, [], [⟨.warn, none⟩])
  | .DeployBufferRequest _ =>
      (r, [], [⟨.error, none⟩])
  | .ProtoBlockValidatorRequest _ =>
      (r, [], [⟨.error, none⟩])
  | .AddressGossiper ev =>
      let res := h.gossiperHandle r.address_gossiper ev
      ({ r with address_gossiper := res.1 }, wrap_effects .AddressGossiper res.2, [])
  | .AddressGossiperAnnouncement (.NewCompleteItem gossiped_address) =>
      Reactor.dispatch_event h r (.Network (.PeerAddressReceived gossiped_address))
termination_by event.rank
decreasing_by all_goals simp [Event.rank]

/-- `Reactor::is_stopped`: delegates to the sync tracker's `is_synced`. -/
def Reactor.is_stopped (h : Handlers) (r : Reactor) : Bool :=
  h.linearChainSyncIsSynced r.linear_chain_sync

/-- The predecessor (initializer) reactor's surviving state, deconstructed
by `Reactor::new`. -/
structure InitializerReactor where
  config : Config
  chainspec_loader : ChainspecLoader
  storage : StorageState
  contract_runtime : ContractRuntimeState

/-- How construction of the joiner reactor can abort: an error returned by
the network constructor, a panic on an undecodable trusted hash, a panic on
a missing genesis post-state hash, or an error from the consensus
constructor.  An abort produces no reactor at all. -/
inductive NewError where
  | smallNetworkFailed
  | trustedHashInvalid
  | missingGenesisPostStateHash
  | eraSupervisorFailed
deriving DecidableEq, Repr

/-- `Reactor::new`: builds every component in the source's order.  The two
source panics (`.unwrap()` on the trusted-hash decode, `.expect(..)` on the
genesis post-state hash) and the two fallible constructors are all modelled
as `Except` failures: none of them yields a partial reactor. -/
def Reactor.new (h : Handlers) (initializer : InitializerReactor) :
    Except NewError (Reactor × Effects Event) := do
  let config := initializer.config
  let chainspec_loader := initializer.chainspec_loader
  let netRes ← match h.smallNetworkNew config.network with
    | .ok res => pure res
    | .error _ => throw NewError.smallNetworkFailed
  let linear_chain_fetcher := h.fetcherNew config.gossip
  let effects := wrap_effects Event.Network netRes.2
  let address_gossiper := h.gossiperNewForCompleteItems config.gossip
  let init_hash ← match config.node.trusted_hash with
    | none => pure none
    | some str_hash =>
        match h.fromHex str_hash with
        | some digest => pure (some (BlockHash.new digest))
        | none => throw NewError.trustedHashInvalid
  let linear_chain_sync := h.linearChainSyncNew init_hash
  let block_validator := h.blockValidatorNew
  let deploy_fetcher := h.fetcherNew config.gossip
  let block_by_height_fetcher := h.fetcherNew config.gossip
  let genesis_post_state_hash ← match chainspec_loader.genesis_post_state_hash with
    | some digest => pure digest
    | none => throw NewError.missingGenesisPostStateHash
  let block_executor := h.blockExecutorNew genesis_post_state_hash
  let linear_chain := h.linearChainNew
  let validator_stakes := chainspec_loader.genesis_validator_stakes
  let consensusRes ← match h.eraSupervisorNew h.now config.consensus validator_stakes
      chainspec_loader.highway_config with
    | .ok res => pure res
    | .error _ => throw NewError.eraSupervisorFailed
  pure
    ({ net := netRes.1
       address_gossiper := address_gossiper
       config := config
       chainspec_loader := chainspec_loader
       storage := initializer.storage
       contract_runtime := initializer.contract_runtime
       linear_chain_fetcher := linear_chain_fetcher
       linear_chain_sync := linear_chain_sync
       block_validator := block_validator
       deploy_fetcher := deploy_fetcher
       block_executor := block_executor
       linear_chain := linear_chain
       consensus := consensusRes.1
       init_consensus_effects := consensusRes.2
       block_by_height_fetcher := block_by_height_fetcher },
     effects)

/-- The hand-off record for the validator phase
(`validator::ValidatorInitConfig`), exactly the seven fields populated by
`into_validator_config`. -/
structure ValidatorInitConfig where
  chainspec_loader : ChainspecLoader
  config : Config
  contract_runtime : ContractRuntimeState
  storage : StorageState
  consensus : ConsensusState
  init_consensus_effects : Effects ConsensusEvent
  linear_chain : List Block

/-- One observable step of teardown: finalizing the network transport, or
yielding the successor configuration. -/
inductive TeardownStep where
  | finalizeNetwork (net : SmallNetworkState)
  | yieldConfig (cfg : ValidatorInitConfig)

/-- `Reactor::into_validator_config`: builds the hand-off record from the
surviving components, finalizes the network, then yields the record; the
trace records both steps in execution order. -/
def Reactor.into_validator_config (r : Reactor) : List TeardownStep :=
  let config : ValidatorInitConfig :=
    { chainspec_loader := r.chainspec_loader
      config := r.config
      contract_runtime := r.contract_runtime
      storage := r.storage
      consensus := r.consensus
      init_consensus_effects := r.init_consensus_effects
      linear_chain := r.linear_chain.linear_chain }
  [TeardownStep.finalizeNetwork r.net, TeardownStep.yieldConfig config]

/-- Names of the twelve component fields of the reactor, used to state the
frame property of dispatch. -/
inductive CompTag where
  | net
  | addressGossiper
  | storage
  | contractRuntime
  | linearChainFetcher
  | linearChainSync
  | blockValidator
  | deployFetcher
  | blockExecutor
  | linearChain
  | consensus
  | blockByHeightFetcher
deriving DecidableEq, Repr

/-- `AgreeExcept t r s`: reactor `s` agrees with `r` on every component
field other than the one named by `t` (all of them when `t = none`), and on
the non-component fields (config, chainspec loader, accumulated consensus
effects) unconditionally. -/
def AgreeExcept (t : Option CompTag) (r s : Reactor) : Prop :=
  (t ≠ some CompTag.net → s.net = r.net) ∧
  (t ≠ some CompTag.addressGossiper → s.address_gossiper = r.address_gossiper) ∧
  s.config = r.config ∧
  s.chainspec_loader = r.chainspec_loader ∧
  (t ≠ some CompTag.storage → s.storage = r.storage) ∧
  (t ≠ some CompTag.contractRuntime → s.contract_runtime = r.contract_runtime) ∧
  (t ≠ some CompTag.linearChainFetcher →
    s.linear_chain_fetcher = r.linear_chain_fetcher) ∧
  (t ≠ some CompTag.linearChainSync → s.linear_chain_sync = r.linear_chain_sync) ∧
  (t ≠ some CompTag.blockValidator → s.block_validator = r.block_validator) ∧
  (t ≠ some CompTag.deployFetcher → s.deploy_fetcher = r.deploy_fetcher) ∧
  (t ≠ some CompTag.blockExecutor → s.block_executor = r.block_executor) ∧
  (t ≠ some CompTag.linearChain → s.linear_chain = r.linear_chain) ∧
  (t ≠ some CompTag.consensus → s.consensus = r.consensus) ∧
  s.init_consensus_effects = r.init_consensus_effects ∧
  (t ≠ some CompTag.blockByHeightFetcher →
    s.block_by_height_fetcher = r.block_by_height_fetcher)

/-- A concrete, fully computable instance of the external collaborators,
used to witness theorems with hypotheses on concrete inputs. -/
def testHandlers : Handlers where
  netHandle := fun s _ => (s + 1, [])
  storageHandle := fun s _ => (s + 1, [])
  blockFetcherHandle := fun s ev => (s + 1, [ev])
  blockByHeightFetcherHandle := fun s ev => (s + 1, [ev])
  deployFetcherHandle := fun s _ => (s + 1, [])
  blockValidatorHandle := fun s _ => (s + 1, [])
  linearChainSyncHandle := fun s ev => (s + 1, [ev])
  linearChainSyncIsSynced := fun s => s == 0
  blockExecutorHandle := fun s _ => (s + 1, [])
  contractRuntimeHandle := fun s _ => (s + 1, [])
  linearChainHandle := fun s _ => (s, [])
  consensusHandle := fun s _ => (s + 1, [])
  gossiperHandle := fun s _ => (s + 1, [])
  decodeBlock := fun bytes => if bytes = [1] then some 5 else none
  decodeBlockByHeight := fun bytes => if bytes = [1] then some 6 else none
  blockFetcherReqInto := fun req => FetcherEvent.Other req
  blockByHeightFetcherReqInto := fun req => FetcherEvent.Other req
  deployFetcherReqInto := fun req => FetcherEvent.Other req
  blockValidatorReqInto := fun req => req
  blockExecutorReqInto := fun req => req
  smallNetworkNew := fun _ => Except.ok (0, [])
  fromHex := fun _ => none
  fetcherNew := fun _ => 0
  gossiperNewForCompleteItems := fun _ => 0
  blockValidatorNew := 0
  linearChainSyncNew := fun _ => 0
  blockExecutorNew := fun d => d
  linearChainNew := ⟨[], 0⟩
  now := 0
  eraSupervisorNew := fun _ _ _ _ => Except.ok (0, [])

/-- A concrete reactor state for witnesses. -/
def testReactor : Reactor where
  net := 0
  address_gossiper := 0
  config := { network := 0, gossip := 0, node := { trusted_hash := some "zz" }, consensus := 0 }
  chainspec_loader :=
    { genesis_post_state_hash := some 1, genesis_validator_stakes := 0, highway_config := 0 }
  storage := 0
  contract_runtime := 0
  linear_chain_fetcher := 0
  linear_chain_sync := 0
  block_validator := 0
  deploy_fetcher := 0
  block_executor := 0
  linear_chain := ⟨[], 0⟩
  consensus := 0
  init_consensus_effects := []
  block_by_height_fetcher := 0

/-- A second concrete reactor: same sync-tracker state as `testReactor` but
every phase-local component differs, for the frame-style witnesses. -/
def testReactorB : Reactor :=
  { testReactor with
      net := 7
      address_gossiper := 8
      storage := 9
      linear_chain_fetcher := 10
      block_validator := 11
      deploy_fetcher := 12
      block_executor := 13
      block_by_height_fetcher := 14 }

/-- The initializer state used for the construction-abort witness: its
trusted hash is a string `testHandlers.fromHex` rejects. -/
def testInitializer : InitializerReactor where
  config := { network := 0, gossip := 0, node := { trusted_hash := some "zz" }, consensus := 0 }
  chainspec_loader :=
    { genesis_post_state_hash := some 1, genesis_validator_stakes := 0, highway_config := 0 }
  storage := 0
  contract_runtime := 0

/-- Claim C1: `is_stopped` is true exactly when the sync tracker reports
synchronized, and it consults no other part of the reactor: two states
agreeing on the sync-tracker field agree on `is_stopped`. -/
theorem is_stopped_iff_sync_tracker_synced (h : Handlers) (r s : Reactor)
    (hagree : r.linear_chain_sync = s.linear_chain_sync) :
    (Reactor.is_stopped h r = true ↔
      h.linearChainSyncIsSynced r.linear_chain_sync = true) ∧
    Reactor.is_stopped h r = Reactor.is_stopped h s := by
  refine ⟨Iff.rfl, ?_⟩
  simp [Reactor.is_stopped, hagree]

/-- Witness for C1 at concrete states differing in every component except
the sync tracker. -/
theorem is_stopped_iff_sync_tracker_synced_witness :
    (Reactor.is_stopped testHandlers testReactor = true ↔
      testHandlers.linearChainSyncIsSynced testReactor.linear_chain_sync = true) ∧
    Reactor.is_stopped testHandlers testReactor =
      Reactor.is_stopped testHandlers testReactorB :=
  is_stopped_iff_sync_tracker_synced testHandlers testReactor testReactorB rfl

/-- Claim C2: teardown finalizes the network before yielding the hand-off
record; the record is built from exactly the seven surviving fields, so any
two reactors agreeing on those fields (and the network) tear down
identically, whatever their sync tracker, fetchers, gossiper, block
validator or block executor hold. -/
theorem into_validator_config_hands_off_exactly_seven (r s : Reactor)
    (hnet : s.net = r.net)
    (hcsl : s.chainspec_loader = r.chainspec_loader)
    (hcfg : s.config = r.config)
    (hcr : s.contract_runtime = r.contract_runtime)
    (hst : s.storage = r.storage)
    (hcons : s.consensus = r.consensus)
    (hice : s.init_consensus_effects = r.init_consensus_effects)
    (hlc : s.linear_chain = r.linear_chain) :
    r.into_validator_config =
      [TeardownStep.finalizeNetwork r.net,
       TeardownStep.yieldConfig
         { chainspec_loader := r.chainspec_loader
           config := r.config
           contract_runtime := r.contract_runtime
           storage := r.storage
           consensus := r.consensus
           init_consensus_effects := r.init_consensus_effects
           linear_chain := r.linear_chain.linear_chain }] ∧
    r.into_validator_config = s.into_validator_config := by
  refine ⟨rfl, ?_⟩
  simp [Reactor.into_validator_config, hnet, hcsl, hcfg, hcr, hst, hcons, hice, hlc]

/-- Witness for C2 at concrete reactors differing exactly in the
phase-local components. -/
theorem into_validator_config_hands_off_exactly_seven_witness :
    testReactor.into_validator_config =
      [TeardownStep.finalizeNetwork testReactor.net,
       TeardownStep.yieldConfig
         { chainspec_loader := testReactor.chainspec_loader
           config := testReactor.config
           contract_runtime := testReactor.contract_runtime
           storage := testReactor.storage
           consensus := testReactor.consensus
           init_consensus_effects := testReactor.init_consensus_effects
           linear_chain := testReactor.linear_chain.linear_chain }] ∧
    testReactor.into_validator_config =
      Reactor.into_validator_config { testReactorB with net := 0, storage := 0 } :=
  into_validator_config_hands_off_exactly_seven testReactor
    { testReactorB with net := 0, storage := 0 } rfl rfl rfl rfl rfl rfl rfl rfl

/-- Claim C3: a `GetResponse` tagged Block or BlockByHeight whose payload
fails to deserialize is dropped: no effects, no new event, the reactor
unchanged, and exactly one error-level log mentioning the sender. -/
theorem malformed_get_response_dropped (h : Handlers) (r : Reactor)
    (sender : NodeId) (bytes : Bytes) :
    (h.decodeBlock bytes = none →
      Reactor.dispatch_event h r
        (.NetworkAnnouncement (.MessageReceived sender (.GetResponse .Block bytes))) =
        (r, [], [⟨LogLevel.error, some sender⟩])) ∧
    (h.decodeBlockByHeight bytes = none →
      Reactor.dispatch_event h r
        (.NetworkAnnouncement (.MessageReceived sender (.GetResponse .BlockByHeight bytes))) =
        (r, [], [⟨LogLevel.error, some sender⟩])) := by
  constructor <;> intro hdecode <;> simp [Reactor.dispatch_event, hdecode]

/-- Witness for C3 at a concrete sender and undecodable payload. -/
theorem malformed_get_response_dropped_witness :
    testHandlers.decodeBlock [0] = none ∧
    testHandlers.decodeBlockByHeight [0] = none ∧
    Reactor.dispatch_event testHandlers testReactor
      (.NetworkAnnouncement (.MessageReceived 3 (.GetResponse .Block [0]))) =
      (testReactor, [], [⟨LogLevel.error, some 3⟩]) ∧
    Reactor.dispatch_event testHandlers testReactor
      (.NetworkAnnouncement (.MessageReceived 3 (.GetResponse .BlockByHeight [0]))) =
      (testReactor, [], [⟨LogLevel.error, some 3⟩]) :=
  ⟨rfl, rfl,
    (malformed_get_response_dropped testHandlers testReactor 3 [0]).1 rfl,
    (malformed_get_response_dropped testHandlers testReactor 3 [0]).2 rfl⟩

/-- Claim C4: deploy-buffer requests and proto-block validation requests are
rejected: no effects, no state change, exactly one error-level log, and the
dispatch returns normally. -/
theorem proposal_requests_rejected (h : Handlers) (r : Reactor)
    (dreq : DeployBufferRequest) (preq : BlockValidationRequest ProtoBlock) :
    Reactor.dispatch_event h r (.DeployBufferRequest dreq) =
      (r, [], [⟨LogLevel.error, none⟩]) ∧
    Reactor.dispatch_event h r (.ProtoBlockValidatorRequest preq) =
      (r, [], [⟨LogLevel.error, none⟩]) := by
  constructor <;> simp [Reactor.dispatch_event]

/-- Claim C5: a `GetResponse` tagged Block (resp. BlockByHeight) whose
payload decodes to `b` produces exactly the block fetcher's (resp.
block-by-height fetcher's) handling of `GotRemotely b (Peer sender)`, lifted
into that fetcher's event variant, with no other state change and no log. -/
theorem wellformed_get_response_routed_to_fetcher (h : Handlers) (r : Reactor)
    (sender : NodeId) (bytes : Bytes) (b : Block) (bh : BlockByHeight) :
    (h.decodeBlock bytes = some b →
      Reactor.dispatch_event h r
        (.NetworkAnnouncement (.MessageReceived sender (.GetResponse .Block bytes))) =
        ({ r with linear_chain_fetcher :=
            (h.blockFetcherHandle r.linear_chain_fetcher
              (.GotRemotely b (.Peer sender))).1 },
          wrap_effects Event.BlockFetcher
            (h.blockFetcherHandle r.linear_chain_fetcher
              (.GotRemotely b (.Peer sender))).2,
          [])) ∧
    (h.decodeBlockByHeight bytes = some bh →
      Reactor.dispatch_event h r
        (.NetworkAnnouncement (.MessageReceived sender (.GetResponse .BlockByHeight bytes))) =
        ({ r with block_by_height_fetcher :=
            (h.blockByHeightFetcherHandle r.block_by_height_fetcher
              (.GotRemotely bh (.Peer sender))).1 },
          wrap_effects Event.BlockByHeightFetcher
            (h.blockByHeightFetcherHandle r.block_by_height_fetcher
              (.GotRemotely bh (.Peer sender))).2,
          [])) := by
  constructor <;> intro hdecode <;> simp [Reactor.dispatch_event, hdecode]

/-- Witness for C5 at a concrete sender and decodable payload. -/
theorem wellformed_get_response_routed_to_fetcher_witness :
    testHandlers.decodeBlock [1] = some 5 ∧
    testHandlers.decodeBlockByHeight [1] = some 6 ∧
    Reactor.dispatch_event testHandlers testReactor
      (.NetworkAnnouncement (.MessageReceived 3 (.GetResponse .Block [1]))) =
      ({ testReactor with linear_chain_fetcher :=
          (testHandlers.blockFetcherHandle testReactor.linear_chain_fetcher
            (.GotRemotely 5 (.Peer 3))).1 },
        wrap_effects Event.BlockFetcher
          (testHandlers.blockFetcherHandle testReactor.linear_chain_fetcher
            (.GotRemotely 5 (.Peer 3))).2,
        []) ∧
    Reactor.dispatch_event testHandlers testReactor
      (.NetworkAnnouncement (.MessageReceived 3 (.GetResponse .BlockByHeight [1]))) =
      ({ testReactor with block_by_height_fetcher :=
          (testHandlers.blockByHeightFetcherHandle testReactor.block_by_height_fetcher
            (.GotRemotely 6 (.Peer 3))).1 },
        wrap_effects Event.BlockByHeightFetcher
          (testHandlers.blockByHeightFetcherHandle testReactor.block_by_height_fetcher
            (.GotRemotely 6 (.Peer 3))).2,
        []) :=
  ⟨rfl, rfl,
    (wellformed_get_response_routed_to_fetcher testHandlers testReactor 3 [1] 5 6).1 rfl,
    (wellformed_get_response_routed_to_fetcher testHandlers testReactor 3 [1] 5 6).2 rfl⟩

/-- Claim C6: a "new peer connected" announcement for `p` invokes only the
sync tracker, passing it `NewPeerConnected p`, and returns exactly its
effects lifted into the sync-tracker variant, with no other state change,
no other effects and no log. -/
theorem new_peer_routed_only_to_sync_tracker (h : Handlers) (r : Reactor)
    (p : NodeId) :
    Reactor.dispatch_event h r (.NetworkAnnouncement (.NewPeer p)) =
      ({ r with linear_chain_sync :=
          (h.linearChainSyncHandle r.linear_chain_sync (.NewPeerConnected p)).1 },
        wrap_effects Event.LinearChainSync
          (h.linearChainSyncHandle r.linear_chain_sync (.NewPeerConnected p)).2,
        []) := by
  simp [Reactor.dispatch_event]

/-- Claim C7: a consensus "handled at height H" announcement produces
exactly the sync tracker's handling of `BlockHandled H`; every other
consensus announcement yields zero effects and one warning-level log. -/
theorem consensus_announcement_routing (h : Handlers) (r : Reactor)
    (height n : Nat) :
    Reactor.dispatch_event h r (.ConsensusAnnouncement (.Handled height)) =
      ({ r with linear_chain_sync :=
          (h.linearChainSyncHandle r.linear_chain_sync (.BlockHandled height)).1 },
        wrap_effects Event.LinearChainSync
          (h.linearChainSyncHandle r.linear_chain_sync (.BlockHandled height)).2,
        []) ∧
    Reactor.dispatch_event h r (.ConsensusAnnouncement (.Other n)) =
      (r, [], [⟨LogLevel.warn, none⟩]) := by
  constructor <;> simp [Reactor.dispatch_event]

/-- Claim C9: dispatching each request-wrapped variant equals dispatching
the corresponding component event variant carrying the converted request —
same state change, same effects, nothing added. -/
theorem request_dispatch_equals_converted_event_dispatch (h : Handlers)
    (r : Reactor) (rb : FetcherRequest Block) (rh : FetcherRequest BlockByHeight)
    (rd : FetcherRequest Deploy) (rv : BlockValidationRequest Block)
    (rx : BlockExecutorRequest) :
    Reactor.dispatch_event h r (.BlockFetcherRequest rb) =
      Reactor.dispatch_event h r (.BlockFetcher (h.blockFetcherReqInto rb)) ∧
    Reactor.dispatch_event h r (.BlockByHeightFetcherRequest rh) =
      Reactor.dispatch_event h r
        (.BlockByHeightFetcher (h.blockByHeightFetcherReqInto rh)) ∧
    Reactor.dispatch_event h r (.DeployFetcherRequest rd) =
      Reactor.dispatch_event h r (.DeployFetcher (h.deployFetcherReqInto rd)) ∧
    Reactor.dispatch_event h r (.BlockValidatorRequest rv) =
      Reactor.dispatch_event h r (.BlockValidator (h.blockValidatorReqInto rv)) ∧
    Reactor.dispatch_event h r (.BlockExecutorRequest rx) =
      Reactor.dispatch_event h r (.BlockExecutor (h.blockExecutorReqInto rx)) := by
  refine ⟨?_, ?_, ?_, ?_, ?_⟩ <;> simp [Reactor.dispatch_event]

/-- Claim C8: construction never returns a reactor when the configured
trusted hash fails hex decoding or the genesis post-state hash is absent —
the startup aborts entirely, with no partial reactor. -/
theorem construction_aborts_on_bad_hash_or_missing_genesis (h : Handlers)
    (initializer : InitializerReactor)
    (hbad : (∃ s, initializer.config.node.trusted_hash = some s ∧ h.fromHex s = none) ∨
        initializer.chainspec_loader.genesis_post_state_hash = none) :
    (Reactor.new h initializer).toOption = none := by
  cases hnet : h.smallNetworkNew initializer.config.network with
  | error e =>
      simp [Reactor.new, hnet, Except.toOption, Except.bind, bind, Except.map,
        Functor.map, throw, throwThe, MonadExceptOf.throw, pure, Except.pure]
  | ok netRes =>
    rcases hbad with ⟨s, hsome, hnone⟩ | hgen
    · simp [Reactor.new, hnet, hsome, hnone, Except.toOption, Except.bind, bind,
        Except.map, Functor.map, throw, throwThe, MonadExceptOf.throw, pure,
        Except.pure]
    · cases hth : initializer.config.node.trusted_hash with
      | none =>
          simp [Reactor.new, hnet, hth, hgen, Except.toOption, Except.bind, bind,
            Except.map, Functor.map, throw, throwThe, MonadExceptOf.throw, pure,
            Except.pure]
      | some str =>
        cases hfh : h.fromHex str with
        | none =>
            simp [Reactor.new, hnet, hth, hfh, Except.toOption, Except.bind, bind,
              Except.map, Functor.map, throw, throwThe, MonadExceptOf.throw, pure,
              Except.pure]
        | some digest =>
            simp [Reactor.new, hnet, hth, hfh, hgen, Except.toOption, Except.bind,
              bind, Except.map, Functor.map, throw, throwThe, MonadExceptOf.throw,
              pure, Except.pure]

/-- Witness for C8: a concrete initializer whose trusted hash the hex
decoder rejects. -/
theorem construction_aborts_on_bad_hash_or_missing_genesis_witness :
    ((∃ s, testInitializer.config.node.trusted_hash = some s ∧
        testHandlers.fromHex s = none) ∨
      testInitializer.chainspec_loader.genesis_post_state_hash = none) ∧
    (Reactor.new testHandlers testInitializer).toOption = none :=
  have hbad : (∃ s, testInitializer.config.node.trusted_hash = some s ∧
        testHandlers.fromHex s = none) ∨
      testInitializer.chainspec_loader.genesis_post_state_hash = none :=
    Or.inl ⟨"zz", rfl, rfl⟩
  ⟨hbad, construction_aborts_on_bad_hash_or_missing_genesis testHandlers
    testInitializer hbad⟩

/-- Claim C10: one dispatch invokes at most one component: there is a (possibly
absent) component field such that the resulting reactor agrees with the
original on every other component field, and on config, chainspec loader and
the accumulated consensus effects unconditionally. -/
theorem dispatch_event_mutates_at_most_one_component (h : Handlers)
    (r : Reactor) (e : Event) :
    ∃ t : Option CompTag, AgreeExcept t r (Reactor.dispatch_event h r e).1 := by
  cases e with
  | Network ev =>
      exact ⟨some CompTag.net, by simp [Reactor.dispatch_event, AgreeExcept]⟩
  | Storage ev =>
      exact ⟨some CompTag.storage, by simp [Reactor.dispatch_event, AgreeExcept]⟩
  | BlockFetcher ev =>
      exact ⟨some CompTag.linearChainFetcher,
        by simp [Reactor.dispatch_event, AgreeExcept]⟩
  | BlockByHeightFetcher ev =>
      exact ⟨some CompTag.blockByHeightFetcher,
        by simp [Reactor.dispatch_event, AgreeExcept]⟩
  | DeployFetcher ev =>
      exact ⟨some CompTag.deployFetcher,
        by simp [Reactor.dispatch_event, AgreeExcept]⟩
  | BlockValidator ev =>
      exact ⟨some CompTag.blockValidator,
        by simp [Reactor.dispatch_event, AgreeExcept]⟩
  | LinearChainSync ev =>
      exact ⟨some CompTag.linearChainSync,
        by simp [Reactor.dispatch_event, AgreeExcept]⟩
  | BlockExecutor ev =>
      exact ⟨some CompTag.blockExecutor,
        by simp [Reactor.dispatch_event, AgreeExcept]⟩
  | ContractRuntime ev =>
      exact ⟨some CompTag.contractRuntime,
        by simp [Reactor.dispatch_event, AgreeExcept]⟩
  | LinearChain ev =>
      exact ⟨some CompTag.linearChain,
        by simp [Reactor.dispatch_event, AgreeExcept]⟩
  | Consensus ev =>
      exact ⟨some CompTag.consensus,
        by simp [Reactor.dispatch_event, AgreeExcept]⟩
  | AddressGossiper ev =>
      exact ⟨some CompTag.addressGossiper,
        by simp [Reactor.dispatch_event, AgreeExcept]⟩
  | BlockFetcherRequest req =>
      exact ⟨some CompTag.linearChainFetcher,
        by simp [Reactor.dispatch_event, AgreeExcept]⟩
  | BlockByHeightFetcherRequest req =>
      exact ⟨some CompTag.blockByHeightFetcher,
        by simp [Reactor.dispatch_event, AgreeExcept]⟩
  | DeployFetcherRequest req =>
      exact ⟨some CompTag.deployFetcher,
        by simp [Reactor.dispatch_event, AgreeExcept]⟩
  | BlockValidatorRequest req =>
      exact ⟨some CompTag.blockValidator,
        by simp [Reactor.dispatch_event, AgreeExcept]⟩
  | BlockExecutorRequest req =>
      exact ⟨some CompTag.blockExecutor,
        by simp [Reactor.dispatch_event, AgreeExcept]⟩
  | DeployBufferRequest req =>
      exact ⟨none, by simp [Reactor.dispatch_event, AgreeExcept]⟩
  | ProtoBlockValidatorRequest req =>
      exact ⟨none, by simp [Reactor.dispatch_event, AgreeExcept]⟩
  | NetworkAnnouncement ann =>
      cases ann with
      | NewPeer id =>
          exact ⟨some CompTag.linearChainSync,
            by simp [Reactor.dispatch_event, AgreeExcept]⟩
      | GossipOurAddress addr =>
          exact ⟨some CompTag.addressGossiper,
            by simp [Reactor.dispatch_event, AgreeExcept]⟩
      | MessageReceived sender payload =>
          cases payload with
          | GetResponse tag bytes =>
              cases tag with
              | Block =>
                  cases hb : h.decodeBlock bytes with
                  | none =>
                      exact ⟨none,
                        by simp [Reactor.dispatch_event, hb, AgreeExcept]⟩
                  | some block =>
                      exact ⟨some CompTag.linearChainFetcher,
                        by simp [Reactor.dispatch_event, hb, AgreeExcept]⟩
              | BlockByHeight =>
                  cases hh : h.decodeBlockByHeight bytes with
                  | none =>
                      exact ⟨none,
                        by simp [Reactor.dispatch_event, hh, AgreeExcept]⟩
                  | some block =>
                      exact ⟨some CompTag.blockByHeightFetcher,
                        by simp [Reactor.dispatch_event, hh, AgreeExcept]⟩
              | Deploy =>
                  exact ⟨none, by simp [Reactor.dispatch_event, AgreeExcept]⟩
          | AddressGossiper msg =>
              exact ⟨some CompTag.addressGossiper,
                by simp [Reactor.dispatch_event, AgreeExcept]⟩
          | Other n =>
              exact ⟨none, by simp [Reactor.dispatch_event, AgreeExcept]⟩
  | BlockExecutorAnnouncement ann =>
      cases ann with
      | LinearChainBlock block =>
          exact ⟨some CompTag.linearChain,
            by simp [Reactor.dispatch_event, AgreeExcept]⟩
  | ConsensusAnnouncement ann =>
      cases ann with
      | Handled height =>
          exact ⟨some CompTag.linearChainSync,
            by simp [Reactor.dispatch_event, AgreeExcept]⟩
      | Other n =>
          exact ⟨none, by simp [Reactor.dispatch_event, AgreeExcept]⟩
  | AddressGossiperAnnouncement ann =>
      cases ann with
      | NewCompleteItem addr =>
          exact ⟨some CompTag.net,
            by simp [Reactor.dispatch_event, AgreeExcept]⟩
